import Mathlib

/-!
Verification development for the library-management backend
(Kutubxona fondini avtomatlashtirilgan boshqaruv tizimi).

The relational store is embedded shallowly: each table is a list of
records, a SQLAlchemy `query(...).filter(key == id).first()` is a
`List.find?` on the key, and the in-place mutations an endpoint performs
before its single `db.commit()` become a pure function from the store to
either an error or the updated store.  HTTP 404 responses are embedded as
`ApiError.notFound`, HTTP 400 as `ApiError.badRequest`, and the request
schema layer's 422 as `ApiError.unprocessable`.  Dates are embedded as
integers (days since an arbitrary epoch), and the ambient `date.today()`
becomes an explicit `today` parameter.  Monetary amounts are Python
floats in the source, but every amount involved is an integer number of
som, so they are embedded as `Int`.  Apostrophe characters inside the
Uzbek message literals of the source are omitted in the embedded strings;
the identity and the numeric content of every message are preserved.
-/

namespace Kutubxona

set_option maxRecDepth 2000

/-- Status values a Borrowing row takes: `borrowed`, `late`, `returned`. -/
inductive BStatus where
  | borrowed
  | late
  | returned
deriving DecidableEq, Repr

/-- Status values a Penalty row takes: `unpaid`, `paid`, `waived`. -/
inductive PStatus where
  | unpaid
  | paid
  | waived
deriving DecidableEq, Repr

/-- A row of the books table (the fields the borrowing workflow reads or
writes; descriptive columns such as title and author are omitted). -/
structure Book where
  book_id : Nat
  total_copies : Int
  available_copies : Int
  is_active : Bool
deriving DecidableEq, Repr

/-- A row of the members table (the fields the borrowing workflow reads or
writes). -/
structure Member where
  member_id : Nat
  is_active : Bool
  current_borrowed : Int
  total_borrowed : Int
deriving DecidableEq, Repr

/-- A row of the borrowings table. -/
structure Borrowing where
  borrow_id : Nat
  member_id : Nat
  book_id : Nat
  librarian_id : Nat
  borrow_date : Int
  due_date : Int
  return_date : Option Int
  status : BStatus
  notes : Option String
deriving DecidableEq, Repr

/-- A row of the penalties table. -/
structure Penalty where
  penalty_id : Nat
  member_id : Nat
  borrow_id : Option Nat
  amount : Int
  reason : String
  status : PStatus
  paid_date : Option Int
  paid_amount : Option Int
  notes : Option String
deriving DecidableEq, Repr

/-- The relational store: one list per table. -/
structure DB where
  books : List Book
  members : List Member
  borrowings : List Borrowing
  penalties : List Penalty
deriving DecidableEq, Repr

/-- `db.query(Book).filter(Book.book_id == id).first()`. -/
def findBook (db : DB) (id : Nat) : Option Book :=
  db.books.find? fun b => b.book_id == id

/-- `db.query(Member).filter(Member.member_id == id).first()`. -/
def findMember (db : DB) (id : Nat) : Option Member :=
  db.members.find? fun m => m.member_id == id

/-- `db.query(Borrowing).filter(Borrowing.borrow_id == id).first()`. -/
def findBorrowing (db : DB) (id : Nat) : Option Borrowing :=
  db.borrowings.find? fun b => b.borrow_id == id

/-- `db.query(Penalty).filter(Penalty.penalty_id == id).first()`. -/
def findPenalty (db : DB) (id : Nat) : Option Penalty :=
  db.penalties.find? fun p => p.penalty_id == id

/-! ## Penalty Calculator (`src/backend_utils.py`) -/

/-- `calculate_late_penalty` from `src/backend_utils.py`: the flat
per-day formula `days_late * rate_per_day`. -/
def calculate_late_penalty (days_late : Int) (rate_per_day : Int := 5000) : Int :=
  days_late * rate_per_day

/-- `calculate_progressive_penalty` from `src/backend_utils.py`.  The
source initialises `penalty = 0`, `remaining_days = days_late` and runs
four sequential blocks, each guarded by `remaining_days > 0`, consuming
up to 7, 7 and 16 days at 3000, 5000 and 7000 som per day and the rest
at 10000 som per day.  Each mutation step of the Python loop body is
embedded as one `let` binding. -/
def calculate_progressive_penalty (days_late : Int) : Int :=
  let p0 : Int := 0
  let r0 : Int := days_late
  let p1 : Int := if r0 > 0 then p0 + min r0 7 * 3000 else p0
  let r1 : Int := if r0 > 0 then r0 - min r0 7 else r0
  let p2 : Int := if r1 > 0 then p1 + min r1 7 * 5000 else p1
  let r2 : Int := if r1 > 0 then r1 - min r1 7 else r1
  let p3 : Int := if r2 > 0 then p2 + min r2 16 * 7000 else p2
  let r3 : Int := if r2 > 0 then r2 - min r2 16 else r2
  if r3 > 0 then p3 + r3 * 10000 else p3

/-- The per-day rate of the spec's tier table, as a function of the
(1-based) day of lateness: days 1-7 cost 3000, days 8-14 cost 5000,
days 15-30 cost 7000, and days 31 and beyond cost 10000. -/
def tierRate (k : Nat) : Int :=
  if k ≤ 7 then 3000 else if k ≤ 14 then 5000 else if k ≤ 30 then 7000 else 10000

/-- The spec's reading of the progressive penalty: the sum, over each day
of lateness from 1 to `d`, of that day's tier rate. -/
def progressivePenaltySpec (d : Nat) : Int :=
  ∑ k ∈ Finset.Icc 1 d, tierRate k

/-- Closed form of the greedy tier consumption, for the induction. -/
theorem calculate_progressive_penalty_closed (d : Int) :
    calculate_progressive_penalty d =
      3000 * max 0 (min d 7) + 5000 * max 0 (min d 14 - 7)
        + 7000 * max 0 (min d 30 - 14) + 10000 * max 0 (d - 30) := by
  simp only [calculate_progressive_penalty]
  split_ifs <;> omega

theorem progressivePenaltySpec_succ (n : Nat) :
    progressivePenaltySpec (n + 1) = progressivePenaltySpec n + tierRate (n + 1) := by
  simp only [progressivePenaltySpec]
  rw [Finset.sum_Icc_succ_top (by omega)]

theorem calculate_progressive_penalty_eq_spec (n : Nat) :
    calculate_progressive_penalty (n : Int) = progressivePenaltySpec n := by
  induction n with
  | zero => simp [calculate_progressive_penalty, progressivePenaltySpec]
  | succ k ih =>
    rw [progressivePenaltySpec_succ, ← ih, calculate_progressive_penalty_closed,
      calculate_progressive_penalty_closed]
    simp only [tierRate]
    split_ifs <;> push_cast <;> omega

/-! ## Error model and message strings -/

/-- The typed errors the endpoints raise: `notFound` embeds an
`HTTPException` with status 404, `badRequest` one with status 400, and
`unprocessable` the request-schema layer's 422 validation failure. -/
inductive ApiError where
  | notFound (detail : String)
  | badRequest (detail : String)
  | unprocessable (detail : String)
deriving DecidableEq, Repr

/-- Detail string of the 404 raised when a book lookup fails. -/
def bookNotFoundMsg : String := "Kitob topilmadi"

/-- Detail string of the 400 raised by Issue when `available_copies <= 0`. -/
def noCopiesMsg : String := "Bu kitobning mavjud nusxalari yoq"

/-- Detail string of the 404 raised when a member lookup fails. -/
def memberNotFoundMsg : String := "Azo topilmadi"

/-- Detail string of the 400 raised by Issue for an inactive member. -/
def memberInactiveMsg : String := "Bu azo faol emas"

/-- Detail string of the 400 raised by Issue when the member has unpaid
penalties: the source interpolates the summed unpaid amount (in som),
`A'zoning {unpaid_penalties} so'm to'lanmagan jarimasi bor`. -/
def unpaidSumMsg (total : Int) : String :=
  "Azoning " ++ toString total ++ " som tolanmagan jarimasi bor"

/-- Detail string of the 404 raised when a borrowing lookup fails. -/
def borrowingNotFoundMsg : String := "Ijara topilmadi"

/-- Detail string of the 400 raised by Return on an already-returned loan. -/
def alreadyReturnedMsg : String := "Bu kitob allaqachon qaytarilgan"

/-- The `reason` the automatic late-return penalty is created with. -/
def lateReasonMsg (days : Int) : String :=
  "Kitobni muddatidan " ++ toString days ++ " kun kechiktirib qaytarganlik uchun jarima"

/-- Detail string of the 404 raised when a penalty lookup fails. -/
def penaltyNotFoundMsg : String := "Jarima topilmadi"

/-- Detail string of the 400 raised by pay on an already-paid penalty. -/
def penaltyPaidMsg : String := "Bu jarima allaqachon tolangan"

/-- Detail string of the modelled schema rejection of non-positive days. -/
def nonPositiveDaysMsg : String := "days must be positive"

/-- `can_borrow_book` reason for an inactive member. -/
def cbMemberInactiveMsg : String := "Azo faol emas"

/-- `can_borrow_book` reason for an inactive book. -/
def bookInactiveMsg : String := "Kitob faol emas"

/-- `can_borrow_book` reason for a book with no available copies. -/
def bookUnavailableMsg : String := "Kitob mavjud emas"

/-- `can_borrow_book` reason for unpaid penalties: the source
interpolates the number of unpaid penalty rows,
`A'zoning {unpaid_penalties} ta to'lanmagan jarimasi bor`. -/
def unpaidCountMsg (n : Nat) : String :=
  "Azoning " ++ toString n ++ " ta tolanmagan jarimasi bor"

/-- `can_borrow_book` reason for a member at the concurrent-book cap,
naming the cap. -/
def maxBooksMsg : String := "Azo maksimal 5 ta kitobgacha ola oladi"

/-! ## Aggregates over the penalties table -/

/-- `db.query(func.sum(Penalty.amount)).filter(member, status ==
'unpaid').scalar() or 0` from `create_borrowing`: the summed amount of
the member's unpaid penalties (the `or 0` turns SQL's NULL on an empty
row set into 0, which the empty list sum already is). -/
def unpaidPenaltySum (db : DB) (mid : Nat) : Int :=
  ((db.penalties.filter fun p => p.member_id == mid && p.status == PStatus.unpaid).map
    fun p => p.amount).sum

/-- `db.query(Penalty).filter(member, status == 'unpaid').count()` from
`can_borrow_book`: the number of the member's unpaid penalty rows. -/
def unpaidPenaltyCount (db : DB) (mid : Nat) : Nat :=
  db.penalties.countP fun p => p.member_id == mid && p.status == PStatus.unpaid

/-! ## Request payloads -/

/-- The `BorrowingCreate` request payload consumed by the Issue endpoint. -/
structure BorrowingCreate where
  member_id : Nat
  book_id : Nat
  days : Int
  notes : Option String
deriving DecidableEq, Repr

/-- The `BorrowingReturn` request payload consumed by the Return endpoint. -/
structure BorrowingReturn where
  notes : Option String
deriving DecidableEq, Repr

/-- The `PenaltyUpdate` request payload consumed by the pay endpoint. -/
structure PenaltyUpdate where
  paid_amount : Option Int
  notes : Option String
deriving DecidableEq, Repr

/-! ## Column defaults of the ORM models

The ORM models module (`models.py`) is imported by every source file but
is not itself among the source files, so the two column defaults the
workflow relies on are modelled from the spec. -/

/-- Modelled from the spec: the `status` column default of the Borrowing
model (`models.py`, not among the source files).  The spec states a loan
is "created in state `borrowed` when a loan is issued", and
`test_create_borrowing` asserts `status == "borrowed"` on the record the
Issue endpoint returns. -/
def defaultBorrowingStatus : BStatus := .borrowed

/-- Modelled from the spec: the `status` column default of the Penalty
model (`models.py`, not among the source files).  The spec states the
penalty a late return creates has `status == unpaid`. -/
def defaultPenaltyStatus : PStatus := .unpaid

/-! ## The endpoints (`src/backend_routes.py`) -/

/-- The Borrowing row `create_borrowing` inserts: due `days` from today,
status from the model's column default.  `newId` stands for the fresh
primary key the database generates. -/
def newBorrowing (today : Int) (librarianId : Nat) (borrowing : BorrowingCreate)
    (newId : Nat) : Borrowing :=
  { borrow_id := newId
    member_id := borrowing.member_id
    book_id := borrowing.book_id
    librarian_id := librarianId
    borrow_date := today
    due_date := today + borrowing.days
    return_date := none
    status := defaultBorrowingStatus
    notes := borrowing.notes }

/-- The store mutations of `create_borrowing`'s success path, committed
as one transaction: insert the new loan, run `book.available_copies -=
1` on the row keyed by the request's book id and `member.current_borrowed
+= 1; member.total_borrowed += 1` on the row keyed by the request's
member id. -/
def issueApply (db : DB) (borrowing : BorrowingCreate) (nb : Borrowing) : DB :=
  { db with
    borrowings := db.borrowings ++ [nb]
    books := db.books.map fun bk =>
      if bk.book_id == borrowing.book_id then
        { bk with available_copies := bk.available_copies - 1 }
      else bk
    members := db.members.map fun m =>
      if m.member_id == borrowing.member_id then
        { m with
          current_borrowed := m.current_borrowed + 1
          total_borrowed := m.total_borrowed + 1 }
      else m }

/-- `create_borrowing` (`POST /api/borrowings`): look the book up (404 if
missing), reject when no copy is available (400), look the member up
(404 if missing), reject an inactive member (400), reject a positive
summed unpaid-penalty amount (400); otherwise commit `issueApply` with
the loan `newBorrowing` builds. -/
def create_borrowing (db : DB) (today : Int) (librarianId : Nat)
    (borrowing : BorrowingCreate) (newId : Nat) :
    Except ApiError (DB × Borrowing) :=
  match findBook db borrowing.book_id with
  | none => .error (.notFound bookNotFoundMsg)
  | some book =>
    if book.available_copies ≤ 0 then
      .error (.badRequest noCopiesMsg)
    else
      match findMember db borrowing.member_id with
      | none => .error (.notFound memberNotFoundMsg)
      | some member =>
        if member.is_active = false then
          .error (.badRequest memberInactiveMsg)
        else
          let unpaid_penalties := unpaidPenaltySum db borrowing.member_id
          if unpaid_penalties > 0 then
            .error (.badRequest (unpaidSumMsg unpaid_penalties))
          else
            let db_borrowing := newBorrowing today librarianId borrowing newId
            .ok (issueApply db borrowing db_borrowing, db_borrowing)

/-- The loan row as `return_book` mutates it: marked returned today,
`notes` overwritten only by a truthy notes string. -/
def returnedLoan (borrowing : Borrowing) (today : Int)
    (return_data : BorrowingReturn) : Borrowing :=
  { borrowing with
    status := .returned
    return_date := some today
    notes := match return_data.notes with
      | some n => if n = "" then borrowing.notes else some n
      | none => borrowing.notes }

/-- The Penalty row a late return inserts: `days_late * 5000` som, with
the lateness reason, status from the model's column default. -/
def latePenalty (borrowing : Borrowing) (days_late : Int) (newPenaltyId : Nat) : Penalty :=
  { penalty_id := newPenaltyId
    member_id := borrowing.member_id
    borrow_id := some borrowing.borrow_id
    amount := days_late * 5000
    reason := lateReasonMsg days_late
    status := defaultPenaltyStatus
    paid_date := none
    paid_amount := none
    notes := none }

/-- The store mutations of `return_book`'s success path, committed as
one transaction: replace the loan row keyed by `borrow_id` with its
returned version, run `book.available_copies += 1` on the row keyed by
the loan's book id and `member.current_borrowed -= 1` on the row keyed
by the loan's member id, and, when the return is late, insert the
automatic penalty. -/
def returnApply (db : DB) (today : Int) (borrow_id : Nat) (borrowing : Borrowing)
    (return_data : BorrowingReturn) (newPenaltyId : Nat) : DB :=
  let is_late : Bool := today > borrowing.due_date
  let days_late : Int := if is_late then today - borrowing.due_date else 0
  let db1 : DB :=
    { db with
      borrowings := db.borrowings.map fun b =>
        if b.borrow_id == borrow_id then returnedLoan borrowing today return_data else b
      books := db.books.map fun bk =>
        if bk.book_id == borrowing.book_id then
          { bk with available_copies := bk.available_copies + 1 }
        else bk
      members := db.members.map fun m =>
        if m.member_id == borrowing.member_id then
          { m with current_borrowed := m.current_borrowed - 1 }
        else m }
  if is_late then
    { db1 with penalties := db1.penalties ++ [latePenalty borrowing days_late newPenaltyId] }
  else db1

/-- `return_book` (`PUT /api/borrowings/{id}/return`): look the loan up
(404 if missing), reject an already-returned loan (400); otherwise
commit `returnApply`.  The loan's `notes` are overwritten only when the
request carries a truthy notes string, mirroring Python's
`if return_data.notes`. -/
def return_book (db : DB) (today : Int) (borrow_id : Nat)
    (return_data : BorrowingReturn) (newPenaltyId : Nat) :
    Except ApiError (DB × Borrowing) :=
  match findBorrowing db borrow_id with
  | none => .error (.notFound borrowingNotFoundMsg)
  | some borrowing =>
    if borrowing.status = .returned then
      .error (.badRequest alreadyReturnedMsg)
    else
      .ok (returnApply db today borrow_id borrowing return_data newPenaltyId,
        returnedLoan borrowing today return_data)

/-- The penalty row as `pay_penalty` mutates it: `status` paid,
`paid_date` today, `paid_amount` set to `payment.paid_amount or
penalty.amount` — Python's `or`, under which a missing override and an
explicit override of 0 both fall back to the penalty's amount — and
`notes` overwritten only by a truthy notes string. -/
def paidPenalty (penalty : Penalty) (today : Int) (payment : PenaltyUpdate) : Penalty :=
  let paid : Int :=
    match payment.paid_amount with
    | some a => if a = 0 then penalty.amount else a
    | none => penalty.amount
  { penalty with
    status := .paid
    paid_date := some today
    paid_amount := some paid
    notes := match payment.notes with
      | some n => if n = "" then penalty.notes else some n
      | none => penalty.notes }

/-- The store mutation of `pay_penalty`'s success path: the updated row
replaces the row keyed by the id. -/
def payApply (db : DB) (penalty_id : Nat) (updated : Penalty) : DB :=
  { db with
    penalties := db.penalties.map fun p =>
      if p.penalty_id == penalty_id then updated else p }

/-- `pay_penalty` (`PUT /api/penalties/{id}/pay`): look the penalty up
(404 if missing), reject an already-paid penalty (400); otherwise commit
the row `paidPenalty` builds in place of the row keyed by the id. -/
def pay_penalty (db : DB) (today : Int) (penalty_id : Nat)
    (payment : PenaltyUpdate) : Except ApiError (DB × Penalty) :=
  match findPenalty db penalty_id with
  | none => .error (.notFound penaltyNotFoundMsg)
  | some penalty =>
    if penalty.status = .paid then
      .error (.badRequest penaltyPaidMsg)
    else
      let updated := paidPenalty penalty today payment
      .ok (payApply db penalty_id updated, updated)

/-- `can_borrow_book` from `src/backend_utils.py`: the eligibility
checker.  Pure read-only cascade, first failure wins: member exists,
member active, book exists, book active, a copy available, no unpaid
penalty rows, fewer than `MAX_CONCURRENT_BOOKS = 5` current loans. -/
def can_borrow_book (db : DB) (member_id : Nat) (book_id : Nat) :
    Bool × Option String :=
  match findMember db member_id with
  | none => (false, some memberNotFoundMsg)
  | some member =>
    if member.is_active = false then (false, some cbMemberInactiveMsg)
    else
      match findBook db book_id with
      | none => (false, some bookNotFoundMsg)
      | some book =>
        if book.is_active = false then (false, some bookInactiveMsg)
        else if book.available_copies ≤ 0 then (false, some bookUnavailableMsg)
        else
          let unpaid_penalties := unpaidPenaltyCount db member_id
          if unpaid_penalties > 0 then (false, some (unpaidCountMsg unpaid_penalties))
          else if member.current_borrowed ≥ 5 then (false, some maxBooksMsg)
          else (true, none)

/-- Modelled from the spec: the request-schema module (`schemas.py`,
declaring `BorrowingCreate`) is not among the source files, and the
endpoint body itself performs no check on `days`; per the spec the error
kind `Validation` covers "malformed input, e.g., non-positive loan
days", so the schema layer is modelled as rejecting a request whose
`days` is not positive before the endpoint body runs. -/
def validate_borrowing_create (borrowing : BorrowingCreate) : Option ApiError :=
  if borrowing.days ≤ 0 then some (.unprocessable nonPositiveDaysMsg) else none

/-- The Issue endpoint behind the modelled request-schema validation:
a request the schema rejects never reaches `create_borrowing`. -/
def create_borrowing_endpoint (db : DB) (today : Int) (librarianId : Nat)
    (borrowing : BorrowingCreate) (newId : Nat) :
    Except ApiError (DB × Borrowing) :=
  match validate_borrowing_create borrowing with
  | some e => .error e
  | none => create_borrowing db today librarianId borrowing newId

/-- The store an Issue request leaves behind: the updated store on
success, the store exactly as it was on any error (the source raises
before performing any mutation, and the transaction commits only on the
success path). -/
def issueState (db : DB) (today : Int) (librarianId : Nat)
    (borrowing : BorrowingCreate) (newId : Nat) : DB :=
  match create_borrowing db today librarianId borrowing newId with
  | .ok (db', _) => db'
  | .error _ => db

/-! ## Open-loan counts and the reachable-state invariant -/

/-- A loan status that counts as an open loan: `borrowed` or `late`. -/
def isOpenStatus (s : BStatus) : Bool := s == .borrowed || s == .late

/-- The number of open loans referencing a given book. -/
def bookOpenCount (db : DB) (bid : Nat) : Nat :=
  db.borrowings.countP fun b => b.book_id == bid && isOpenStatus b.status

/-- The number of open loans owned by a given member. -/
def memberOpenCount (db : DB) (mid : Nat) : Nat :=
  db.borrowings.countP fun b => b.member_id == mid && isOpenStatus b.status

/-- The well-formedness invariant of a reachable store: primary keys are
unique, every book's `available_copies` is non-negative and differs from
its `total_copies` by exactly the book's open-loan count, and every
member's `current_borrowed` equals the member's open-loan count. -/
def Inv (db : DB) : Prop :=
  (db.books.map fun b => b.book_id).Nodup ∧
  (db.members.map fun m => m.member_id).Nodup ∧
  (db.borrowings.map fun b => b.borrow_id).Nodup ∧
  (∀ bk ∈ db.books, 0 ≤ bk.available_copies ∧
      bk.available_copies + (bookOpenCount db bk.book_id : Int) = bk.total_copies) ∧
  (∀ m ∈ db.members, m.current_borrowed = (memberOpenCount db m.member_id : Int))

/-! ## Concrete stores used by counterexamples and witnesses -/

/-- A member already holding `MAX_CONCURRENT_BOOKS = 5` open loans. -/
def c1Member : Member :=
  { member_id := 1, is_active := true, current_borrowed := 5, total_borrowed := 9 }

/-- An active book with copies available. -/
def c1Book : Book :=
  { book_id := 1, total_copies := 8, available_copies := 3, is_active := true }

/-- A store at the concurrent-loan cap for member 1. -/
def c1DB : DB := { books := [c1Book], members := [c1Member], borrowings := [], penalties := [] }

/-- An Issue request for the member at the cap. -/
def c1Req : BorrowingCreate := { member_id := 1, book_id := 1, days := 14, notes := none }

/-- The loan `create_borrowing` builds for `c1Req` at day 0. -/
def c1Loan : Borrowing :=
  { borrow_id := 1, member_id := 1, book_id := 1, librarian_id := 1, borrow_date := 0,
    due_date := 14, return_date := none, status := .borrowed, notes := none }

/-- The store `create_borrowing` commits for `c1Req` at day 0. -/
def c1DBAfter : DB :=
  { books := [{ book_id := 1, total_copies := 8, available_copies := 2, is_active := true }],
    members := [{ member_id := 1, is_active := true, current_borrowed := 6, total_borrowed := 10 }],
    borrowings := [c1Loan], penalties := [] }

/-- A member with no open loans and one unpaid 25000-som penalty. -/
def c7Member : Member :=
  { member_id := 1, is_active := true, current_borrowed := 0, total_borrowed := 2 }

/-- An active, available book. -/
def c7Book : Book :=
  { book_id := 1, total_copies := 4, available_copies := 4, is_active := true }

/-- The unpaid penalty of member 1. -/
def c7Penalty : Penalty :=
  { penalty_id := 3, member_id := 1, borrow_id := none, amount := 25000, reason := "late",
    status := .unpaid, paid_date := none, paid_amount := none, notes := none }

/-- A store in which member 1 holds exactly one unpaid penalty. -/
def c7DB : DB :=
  { books := [c7Book], members := [c7Member], borrowings := [], penalties := [c7Penalty] }

/-- An Issue request for the member holding the unpaid penalty. -/
def c7Req : BorrowingCreate := { member_id := 1, book_id := 1, days := 14, notes := none }

/-- An open loan due on day 14. -/
def w3Loan : Borrowing :=
  { borrow_id := 1, member_id := 1, book_id := 1, librarian_id := 1, borrow_date := 0,
    due_date := 14, return_date := none, status := .borrowed, notes := none }

/-- A store holding the single open loan `w3Loan`. -/
def w3DB : DB :=
  { books := [{ book_id := 1, total_copies := 3, available_copies := 2, is_active := true }],
    members := [{ member_id := 1, is_active := true, current_borrowed := 1, total_borrowed := 1 }],
    borrowings := [w3Loan], penalties := [] }

/-- The book of the store `w5DB`. -/
def w5Book : Book :=
  { book_id := 1, total_copies := 3, available_copies := 2, is_active := true }

/-- The member of the store `w5DB`. -/
def w5Member : Member :=
  { member_id := 1, is_active := true, current_borrowed := 1, total_borrowed := 4 }

/-- The open loan of the store `w5DB`. -/
def w5Loan : Borrowing :=
  { borrow_id := 1, member_id := 1, book_id := 1, librarian_id := 1, borrow_date := 0,
    due_date := 14, return_date := none, status := .borrowed, notes := none }

/-- A store satisfying `Inv`: one book, one member, one open loan. -/
def w5DB : DB :=
  { books := [w5Book], members := [w5Member], borrowings := [w5Loan], penalties := [] }

/-- An Issue request against `w5DB`. -/
def w5Req : BorrowingCreate := { member_id := 1, book_id := 1, days := 14, notes := none }

/-- A request whose loan period is not positive. -/
def c9Req : BorrowingCreate := { member_id := 1, book_id := 1, days := 0, notes := none }

/-- The store the `c9Req` scenario runs against. -/
def c9DB : DB :=
  { books := [{ book_id := 1, total_copies := 2, available_copies := 2, is_active := true }],
    members := [{ member_id := 1, is_active := true, current_borrowed := 0, total_borrowed := 0 }],
    borrowings := [], penalties := [] }

/-- An unpaid 10000-som penalty. -/
def c10Penalty : Penalty :=
  { penalty_id := 1, member_id := 1, borrow_id := none, amount := 10000, reason := "late",
    status := .unpaid, paid_date := none, paid_amount := none, notes := none }

/-- A store holding the single unpaid penalty `c10Penalty`. -/
def c10DB : DB := { books := [], members := [], borrowings := [], penalties := [c10Penalty] }

/-- What paying `c10Penalty` on day 5 with an explicit override of 0
actually produces: `paid_amount` falls back to the penalty's amount. -/
def c10PaidPenalty : Penalty :=
  { penalty_id := 1, member_id := 1, borrow_id := none, amount := 10000, reason := "late",
    status := .paid, paid_date := some 5, paid_amount := some 10000, notes := none }

/-- Claim C2: for every non-negative number of late days, the greedy
tier-by-tier consumption of `calculate_progressive_penalty` charges each
day of lateness at its tier rate (3000 for days 1-7, 5000 for days 8-14,
7000 for days 15-30, 10000 from day 31 on); in particular 10 days cost
36000, 0 days cost 0 and 40 days cost 268000. -/
theorem C2_progressive_penalty (n : Nat) :
    calculate_progressive_penalty (n : Int) = ∑ k ∈ Finset.Icc 1 n, tierRate k
      ∧ calculate_progressive_penalty 10 = 36000
      ∧ calculate_progressive_penalty 0 = 0
      ∧ calculate_progressive_penalty 40 = 268000 := by
  refine ⟨calculate_progressive_penalty_eq_spec n, by decide, by decide, by decide⟩

/-- Claim C1 fails on the code: `create_borrowing` never consults the
eligibility checker.  At `c1DB` the member already holds 5 open loans
(`MAX_CONCURRENT_BOOKS`), `can_borrow_book` refuses the pair with the
cap reason, yet Issue succeeds and commits a sixth loan. -/
theorem C1_counterexample :
    can_borrow_book c1DB 1 1 = (false, some maxBooksMsg) ∧
    create_borrowing c1DB 0 1 c1Req 1 = .ok (c1DBAfter, c1Loan) :=
  ⟨rfl, rfl⟩

/-- Claim C1 (amended): Issue succeeds iff the book exists with a copy
available and the member exists, is active, and has a non-positive
summed unpaid-penalty amount; it raises `notFound` exactly when the book
is missing or, the book being available, the member is missing, and any
other failure is a 400.  The eligibility checker is not consulted: its
book-`is_active` rule and its `MAX_CONCURRENT_BOOKS` cap are not
enforced by Issue. -/
theorem C1_issue_characterization (db : DB) (today : Int) (lid : Nat)
    (req : BorrowingCreate) (nid : Nat) :
    ((∃ out, create_borrowing db today lid req nid = .ok out) ↔
      ((∃ bk, findBook db req.book_id = some bk ∧ 0 < bk.available_copies) ∧
       (∃ m, findMember db req.member_id = some m ∧ m.is_active = true) ∧
       unpaidPenaltySum db req.member_id ≤ 0)) ∧
    (∀ d, create_borrowing db today lid req nid = .error (.notFound d) ↔
      ((findBook db req.book_id = none ∧ d = bookNotFoundMsg) ∨
       ((∃ bk, findBook db req.book_id = some bk ∧ 0 < bk.available_copies) ∧
        findMember db req.member_id = none ∧ d = memberNotFoundMsg))) := by
  rcases hb : findBook db req.book_id with _ | bk
  · simp [create_borrowing, hb]
    exact fun d => eq_comm
  · by_cases hav : 0 < bk.available_copies
    · have hav' : ¬ bk.available_copies ≤ 0 := by omega
      rcases hm : findMember db req.member_id with _ | m
      · simp [create_borrowing, hb, hav, hav', hm]
        exact fun d => eq_comm
      · by_cases hact : m.is_active = true
        · by_cases hup : unpaidPenaltySum db req.member_id > 0
          · have hup' : ¬ unpaidPenaltySum db req.member_id ≤ 0 := by omega
            simp [create_borrowing, hb, hav, hav', hm, hact, hup, hup']
          · have hup' : unpaidPenaltySum db req.member_id ≤ 0 := by omega
            simp [create_borrowing, hb, hav, hav', hm, hact, hup, hup']
        · have hact' : m.is_active = false := by
            revert hact; cases m.is_active <;> simp
          simp [create_borrowing, hb, hav, hav', hm, hact']
    · have hav' : bk.available_copies ≤ 0 := by omega
      simp [create_borrowing, hb, hav, hav']

/-- Claim C8: `can_borrow_book` is a pure decision cascade over the
supplied store, evaluated in order with the first failure winning:
member found and active, book found, active and available, zero unpaid
penalty rows, fewer than 5 current loans; it answers `(true, none)`
exactly when every rule passes, and each failing rule yields its reason,
the unpaid-penalty reason naming the row count and the cap reason naming
the cap of 5. -/
theorem C8_can_borrow_characterization (db : DB) (mid bid : Nat) :
    (can_borrow_book db mid bid = (true, none) ↔
      ((∃ m, findMember db mid = some m ∧ m.is_active = true ∧ m.current_borrowed < 5) ∧
       (∃ bk, findBook db bid = some bk ∧ bk.is_active = true ∧ 0 < bk.available_copies) ∧
       unpaidPenaltyCount db mid = 0)) ∧
    (findMember db mid = none →
      can_borrow_book db mid bid = (false, some memberNotFoundMsg)) ∧
    (∀ m, findMember db mid = some m → m.is_active = false →
      can_borrow_book db mid bid = (false, some cbMemberInactiveMsg)) ∧
    (∀ m, findMember db mid = some m → m.is_active = true → findBook db bid = none →
      can_borrow_book db mid bid = (false, some bookNotFoundMsg)) ∧
    (∀ m, findMember db mid = some m → m.is_active = true →
      ∀ bk, findBook db bid = some bk → bk.is_active = false →
      can_borrow_book db mid bid = (false, some bookInactiveMsg)) ∧
    (∀ m, findMember db mid = some m → m.is_active = true →
      ∀ bk, findBook db bid = some bk → bk.is_active = true → bk.available_copies ≤ 0 →
      can_borrow_book db mid bid = (false, some bookUnavailableMsg)) ∧
    (∀ m, findMember db mid = some m → m.is_active = true →
      ∀ bk, findBook db bid = some bk → bk.is_active = true → 0 < bk.available_copies →
      0 < unpaidPenaltyCount db mid →
      can_borrow_book db mid bid
        = (false, some (unpaidCountMsg (unpaidPenaltyCount db mid)))) ∧
    (∀ m, findMember db mid = some m → m.is_active = true →
      ∀ bk, findBook db bid = some bk → bk.is_active = true → 0 < bk.available_copies →
      unpaidPenaltyCount db mid = 0 → 5 ≤ m.current_borrowed →
      can_borrow_book db mid bid = (false, some maxBooksMsg)) := by
  rcases hm : findMember db mid with _ | m
  · simp [can_borrow_book, hm]
  · by_cases hact : m.is_active = true
    · rcases hb : findBook db bid with _ | bk
      · simp [can_borrow_book, hm, hact, hb]
      · by_cases hbact : bk.is_active = true
        · by_cases hav : 0 < bk.available_copies
          · have hav' : ¬ bk.available_copies ≤ 0 := by omega
            by_cases hup : 0 < unpaidPenaltyCount db mid
            · have hup' : unpaidPenaltyCount db mid ≠ 0 := by omega
              simp [can_borrow_book, hm, hact, hb, hbact, hav, hav', hup, hup']
            · have hup' : unpaidPenaltyCount db mid = 0 := by omega
              by_cases hcap : m.current_borrowed ≥ 5
              · have hcap' : ¬ m.current_borrowed < 5 := by omega
                simp [can_borrow_book, hm, hact, hb, hbact, hav, hav', hup, hup',
                  hcap, hcap']
              · have hcap' : m.current_borrowed < 5 := by omega
                simp [can_borrow_book, hm, hact, hb, hbact, hav, hav', hup, hup',
                  hcap, hcap']
          · have hav' : bk.available_copies ≤ 0 := by omega
            simp [can_borrow_book, hm, hact, hb, hbact, hav, hav']
        · have hbact' : bk.is_active = false := by
            revert hbact; cases bk.is_active <;> simp
          simp [can_borrow_book, hm, hact, hb, hbact']
    · have hact' : m.is_active = false := by
        revert hact; cases m.is_active <;> simp
      simp [can_borrow_book, hm, hact']

/-! ## List lemmas for key-based row updates -/

/-- Replacing every row keyed `k` by `c` turns the first `find?` hit
into `c` (the update the success paths perform on the hit row). -/
theorem find?_update_key {α : Type} (key : α → Nat) (l : List α) (k : Nat) (c : α)
    (b : α) (hfind : l.find? (fun x => key x == k) = some b)
    (hc : (key c == k) = true) :
    (l.map fun x => if key x == k then c else x).find? (fun x => key x == k)
      = some c := by
  induction l with
  | nil => simp at hfind
  | cons a t ih =>
    by_cases ha : (key a == k) = true
    · simp only [List.map_cons, if_pos ha]
      exact List.find?_cons_of_pos _ hc
    · rw [List.find?_cons_of_neg (p := fun x => key x == k) t ha] at hfind
      simp only [List.map_cons, if_neg ha]
      rw [List.find?_cons_of_neg (p := fun x => key x == k) _ ha]
      exact ih hfind

/-- With unique keys, replacing the row keyed `k` (the first `find?`
hit) swaps exactly that row's contribution to any `countP`. -/
theorem countP_update_key {α : Type} (key : α → Nat) (l : List α) (k : Nat) (c : α)
    (b : α) (p : α → Bool) (hnd : (l.map key).Nodup)
    (hfind : l.find? (fun x => key x == k) = some b) :
    (l.map fun x => if key x == k then c else x).countP p
        + (if p b then 1 else 0)
      = l.countP p + (if p c then 1 else 0) := by
  induction l with
  | nil => simp at hfind
  | cons a t ih =>
    rw [List.map_cons, List.nodup_cons] at hnd
    by_cases ha : (key a == k) = true
    · rw [List.find?_cons_of_pos (p := fun x => key x == k) t ha] at hfind
      have hba : a = b := by injection hfind
      have hak : key a = k := by simpa using ha
      have htne : ∀ x ∈ t, (key x == k) = false := by
        intro x hx
        have : key x ≠ k := fun hxk => hnd.1 (by
          rw [hak, ← hxk]
          exact List.mem_map_of_mem key hx)
        simpa using this
      have hid : (t.map fun x => if key x == k then c else x) = t := by
        rw [List.map_congr_left (g := id) fun x hx => by simp [htne x hx]]
        exact List.map_id t
      subst hba
      simp only [List.map_cons, if_pos ha, hid, List.countP_cons]
      split_ifs <;> omega
    · rw [List.find?_cons_of_neg (p := fun x => key x == k) t ha] at hfind
      have := ih hnd.2 hfind
      simp only [List.map_cons, if_neg ha, List.countP_cons]
      split_ifs at this ⊢ <;> omega

/-- A key-preserving row update leaves the key column of the table
unchanged. -/
theorem map_key_update {α : Type} (key : α → Nat) (l : List α) (k : Nat) (c : α)
    (hc : key c = k) :
    ((l.map fun x => if key x == k then c else x).map key) = l.map key := by
  rw [List.map_map]
  apply List.map_congr_left
  intro x hx
  by_cases hxk : (key x == k) = true
  · have hx2 : key x = k := by simpa using hxk
    rw [Function.comp_apply, if_pos hxk, hc, hx2]
  · rw [Function.comp_apply, if_neg hxk]

/-! ## Inversion of the endpoint success paths -/

/-- A successful Issue pins down every precondition the source checked
and the exact store it committed. -/
theorem create_borrowing_ok {db : DB} {today : Int} {lid : Nat}
    {req : BorrowingCreate} {nid : Nat} {db' : DB} {nb : Borrowing}
    (h : create_borrowing db today lid req nid = .ok (db', nb)) :
    ∃ bk m, findBook db req.book_id = some bk ∧ ¬ bk.available_copies ≤ 0 ∧
      findMember db req.member_id = some m ∧ m.is_active = true ∧
      ¬ unpaidPenaltySum db req.member_id > 0 ∧
      nb = newBorrowing today lid req nid ∧
      db' = issueApply db req (newBorrowing today lid req nid) := by
  rcases hb : findBook db req.book_id with _ | bk
  · simp [create_borrowing, hb] at h
  · by_cases hav : bk.available_copies ≤ 0
    · simp [create_borrowing, hb, hav] at h
    · rcases hm : findMember db req.member_id with _ | m
      · simp [create_borrowing, hb, hav, hm] at h
      · by_cases hact : m.is_active = false
        · simp [create_borrowing, hb, hav, hm, hact] at h
        · by_cases hup : unpaidPenaltySum db req.member_id > 0
          · simp [create_borrowing, hb, hav, hm, hact, hup] at h
          · simp [create_borrowing, hb, hav, hm, hact, hup] at h
            refine ⟨bk, m, rfl, hav, rfl, ?_, hup, h.2.symm, h.1.symm⟩
            revert hact
            cases m.is_active <;> simp

/-- A successful Return pins down the found loan, its openness and the
exact store the endpoint committed. -/
theorem return_book_ok {db : DB} {today : Int} {bid pid : Nat}
    {ret : BorrowingReturn} {db' : DB} {rb : Borrowing}
    (h : return_book db today bid ret pid = .ok (db', rb)) :
    ∃ b, findBorrowing db bid = some b ∧ ¬ b.status = .returned ∧
      rb = returnedLoan b today ret ∧
      db' = returnApply db today bid b ret pid := by
  rcases hf : findBorrowing db bid with _ | b
  · simp [return_book, hf] at h
  · by_cases hst : b.status = .returned
    · simp [return_book, hf, hst] at h
    · simp [return_book, hf, hst] at h
      exact ⟨b, rfl, hst, h.2.symm, h.1.symm⟩

/-- A successful payment pins down the found penalty, its non-paid
status and the exact store the endpoint committed. -/
theorem pay_penalty_ok {db : DB} {today : Int} {pid : Nat}
    {payment : PenaltyUpdate} {db' : DB} {p2 : Penalty}
    (h : pay_penalty db today pid payment = .ok (db', p2)) :
    ∃ p, findPenalty db pid = some p ∧ ¬ p.status = .paid ∧
      p2 = paidPenalty p today payment ∧
      db' = payApply db pid (paidPenalty p today payment) := by
  rcases hf : findPenalty db pid with _ | p
  · simp [pay_penalty, hf] at h
  · by_cases hst : p.status = .paid
    · simp [pay_penalty, hf, hst] at h
    · simp [pay_penalty, hf, hst] at h
      exact ⟨p, rfl, hst, h.2.symm, h.1.symm⟩

/-! ## Components of the committed stores -/

theorem returnApply_borrowings (db : DB) (today : Int) (bid : Nat) (b : Borrowing)
    (ret : BorrowingReturn) (pid : Nat) :
    (returnApply db today bid b ret pid).borrowings
      = db.borrowings.map fun x =>
          if x.borrow_id == bid then returnedLoan b today ret else x := by
  simp only [returnApply]
  split <;> rfl

theorem returnApply_books (db : DB) (today : Int) (bid : Nat) (b : Borrowing)
    (ret : BorrowingReturn) (pid : Nat) :
    (returnApply db today bid b ret pid).books
      = db.books.map fun bk =>
          if bk.book_id == b.book_id then
            { bk with available_copies := bk.available_copies + 1 }
          else bk := by
  simp only [returnApply]
  split <;> rfl

theorem returnApply_members (db : DB) (today : Int) (bid : Nat) (b : Borrowing)
    (ret : BorrowingReturn) (pid : Nat) :
    (returnApply db today bid b ret pid).members
      = db.members.map fun m =>
          if m.member_id == b.member_id then
            { m with current_borrowed := m.current_borrowed - 1 }
          else m := by
  simp only [returnApply]
  split <;> rfl

theorem returnApply_penalties (db : DB) (today : Int) (bid : Nat) (b : Borrowing)
    (ret : BorrowingReturn) (pid : Nat) :
    (returnApply db today bid b ret pid).penalties
      = if today > b.due_date then
          db.penalties ++ [latePenalty b (today - b.due_date) pid]
        else db.penalties := by
  simp only [returnApply]
  by_cases h : today > b.due_date <;> simp [h]

theorem issueApply_books (db : DB) (req : BorrowingCreate) (nb : Borrowing) :
    (issueApply db req nb).books
      = db.books.map fun bk =>
          if bk.book_id == req.book_id then
            { bk with available_copies := bk.available_copies - 1 }
          else bk := rfl

theorem issueApply_members (db : DB) (req : BorrowingCreate) (nb : Borrowing) :
    (issueApply db req nb).members
      = db.members.map fun m =>
          if m.member_id == req.member_id then
            { m with
              current_borrowed := m.current_borrowed + 1
              total_borrowed := m.total_borrowed + 1 }
          else m := rfl

theorem issueApply_borrowings (db : DB) (req : BorrowingCreate) (nb : Borrowing) :
    (issueApply db req nb).borrowings = db.borrowings ++ [nb] := rfl

/-- A key-preserving per-row rewrite leaves the key column unchanged. -/
theorem map_key_map_if {α : Type} (key : α → Nat) (l : List α) (q : Nat) (f : α → α)
    (hf : ∀ x, key (f x) = key x) :
    ((l.map fun x => if key x == q then f x else x).map key) = l.map key := by
  rw [List.map_map]
  apply List.map_congr_left
  intro x hx
  by_cases h : (key x == q) = true
  · rw [Function.comp_apply, if_pos h, hf]
  · rw [Function.comp_apply, if_neg h]

/-! ## Open-loan counting across the two workflows -/

theorem isOpen_of_ne_returned (s : BStatus) (h : s ≠ .returned) :
    isOpenStatus s = true := by
  cases s <;> simp_all [isOpenStatus]

theorem bookOpenCount_issueApply (db : DB) (req : BorrowingCreate) (nb : Borrowing)
    (k : Nat) :
    bookOpenCount (issueApply db req nb) k
      = bookOpenCount db k
        + (if nb.book_id == k && isOpenStatus nb.status then 1 else 0) := by
  simp [bookOpenCount, issueApply_borrowings, List.countP_append, List.countP_cons]

theorem memberOpenCount_issueApply (db : DB) (req : BorrowingCreate) (nb : Borrowing)
    (k : Nat) :
    memberOpenCount (issueApply db req nb) k
      = memberOpenCount db k
        + (if nb.member_id == k && isOpenStatus nb.status then 1 else 0) := by
  simp [memberOpenCount, issueApply_borrowings, List.countP_append, List.countP_cons]

theorem bookOpenCount_returnApply (db : DB) (today : Int) (bid : Nat) (b : Borrowing)
    (ret : BorrowingReturn) (pid : Nat) (k : Nat)
    (hnd : (db.borrowings.map fun x => x.borrow_id).Nodup)
    (hfind : findBorrowing db bid = some b)
    (hopen : b.status ≠ .returned) :
    bookOpenCount (returnApply db today bid b ret pid) k
        + (if b.book_id == k then 1 else 0)
      = bookOpenCount db k := by
  have hf2 : db.borrowings.find? (fun x => x.borrow_id == bid) = some b := hfind
  have h := countP_update_key (fun x => x.borrow_id) db.borrowings bid
    (returnedLoan b today ret) b
    (fun x => x.book_id == k && isOpenStatus x.status) hnd hf2
  have hopen2 : isOpenStatus b.status = true := isOpen_of_ne_returned b.status hopen
  have hret : isOpenStatus (returnedLoan b today ret).status = false := rfl
  simp only [hopen2, hret, Bool.and_true, Bool.and_false] at h
  have hz : (if (false = true) then (1 : Nat) else 0) = 0 := rfl
  rw [hz] at h
  simp only [bookOpenCount, returnApply_borrowings]
  omega

theorem memberOpenCount_returnApply (db : DB) (today : Int) (bid : Nat) (b : Borrowing)
    (ret : BorrowingReturn) (pid : Nat) (k : Nat)
    (hnd : (db.borrowings.map fun x => x.borrow_id).Nodup)
    (hfind : findBorrowing db bid = some b)
    (hopen : b.status ≠ .returned) :
    memberOpenCount (returnApply db today bid b ret pid) k
        + (if b.member_id == k then 1 else 0)
      = memberOpenCount db k := by
  have hf2 : db.borrowings.find? (fun x => x.borrow_id == bid) = some b := hfind
  have h := countP_update_key (fun x => x.borrow_id) db.borrowings bid
    (returnedLoan b today ret) b
    (fun x => x.member_id == k && isOpenStatus x.status) hnd hf2
  have hopen2 : isOpenStatus b.status = true := isOpen_of_ne_returned b.status hopen
  have hret : isOpenStatus (returnedLoan b today ret).status = false := rfl
  simp only [hopen2, hret, Bool.and_true, Bool.and_false] at h
  have hz : (if (false = true) then (1 : Nat) else 0) = 0 := rfl
  rw [hz] at h
  simp only [memberOpenCount, returnApply_borrowings]
  omega

/-! ## The invariant is preserved by Issue and by Return -/

theorem Inv_issue (db : DB) (today : Int) (lid : Nat) (req : BorrowingCreate)
    (nid : Nat) {db' : DB} {nb : Borrowing}
    (hinv : Inv db)
    (hfresh : ∀ x ∈ db.borrowings, x.borrow_id ≠ nid)
    (hok : create_borrowing db today lid req nid = .ok (db', nb)) :
    Inv db' := by
  obtain ⟨bk0, m0, hb, hav, hm, hact, hup, hnb, hdb⟩ := create_borrowing_ok hok
  obtain ⟨hndB, hndM, hndL, hbooks, hmembers⟩ := hinv
  have hb2 : db.books.find? (fun x => x.book_id == req.book_id) = some bk0 := hb
  have hbk0mem : bk0 ∈ db.books := List.mem_of_find?_eq_some hb2
  have hbk0key : (bk0.book_id == req.book_id) = true :=
    List.find?_some (p := fun (x : Book) => x.book_id == req.book_id) hb2
  subst hdb
  subst hnb
  refine ⟨?_, ?_, ?_, ?_, ?_⟩
  · rw [issueApply_books, map_key_map_if (fun (x : Book) => x.book_id) db.books req.book_id
      (fun bk => { bk with available_copies := bk.available_copies - 1 })
      (fun x => rfl)]
    exact hndB
  · rw [issueApply_members, map_key_map_if (fun (x : Member) => x.member_id) db.members
      req.member_id
      (fun m => { m with
        current_borrowed := m.current_borrowed + 1
        total_borrowed := m.total_borrowed + 1 })
      (fun x => rfl)]
    exact hndM
  · rw [issueApply_borrowings, List.map_append]
    rw [List.nodup_append]
    refine ⟨hndL, List.nodup_singleton _, ?_⟩
    intro y hy
    obtain ⟨x, hx, rfl⟩ := List.mem_map.mp hy
    simp only [List.map_cons, List.map_nil, List.mem_singleton]
    exact hfresh x hx
  · intro bk2 hmem
    rw [issueApply_books] at hmem
    obtain ⟨bk, hbk, rfl⟩ := List.mem_map.mp hmem
    have hbase := hbooks bk hbk
    have hcount := bookOpenCount_issueApply db req (newBorrowing today lid req nid)
    by_cases hkb : (bk.book_id == req.book_id) = true
    · have h1 : bk.book_id = req.book_id := by simpa using hkb
      have hbkeq : bk = bk0 :=
        List.inj_on_of_nodup_map hndB hbk hbk0mem
          (by rw [h1]; exact (by simpa using hbk0key : bk0.book_id = req.book_id).symm)
      have hav0 : 0 < bk.available_copies := by rw [hbkeq]; omega
      rw [if_pos hkb]
      have hop : isOpenStatus (newBorrowing today lid req nid).status = true := rfl
      have hbkk : ((newBorrowing today lid req nid).book_id == bk.book_id) = true := by
        show (req.book_id == bk.book_id) = true
        simp [h1]
      have hc := hcount bk.book_id
      rw [hbkk, hop, Bool.and_true, if_pos rfl] at hc
      constructor
      · show 0 ≤ bk.available_copies - 1
        omega
      · show bk.available_copies - 1
            + (bookOpenCount (issueApply db req (newBorrowing today lid req nid))
                bk.book_id : Int)
          = bk.total_copies
        rw [hc]
        push_cast
        omega
    · rw [if_neg hkb]
      have hbkk : ((newBorrowing today lid req nid).book_id == bk.book_id) = false := by
        show (req.book_id == bk.book_id) = false
        have : bk.book_id ≠ req.book_id := by simpa using hkb
        simp [Ne.symm this]
      have hc := hcount bk.book_id
      rw [hbkk, Bool.false_and, if_neg (by simp)] at hc
      rw [hc]
      exact ⟨hbase.1, by push_cast; omega⟩
  · intro m2 hmem
    rw [issueApply_members] at hmem
    obtain ⟨m, hmm, rfl⟩ := List.mem_map.mp hmem
    have hbase := hmembers m hmm
    have hcount := memberOpenCount_issueApply db req (newBorrowing today lid req nid)
    by_cases hkm : (m.member_id == req.member_id) = true
    · have h1 : m.member_id = req.member_id := by simpa using hkm
      rw [if_pos hkm]
      have hop : isOpenStatus (newBorrowing today lid req nid).status = true := rfl
      have hmk : ((newBorrowing today lid req nid).member_id == m.member_id) = true := by
        show (req.member_id == m.member_id) = true
        simp [h1]
      have hc := hcount m.member_id
      rw [hmk, hop, Bool.and_true, if_pos rfl] at hc
      show m.current_borrowed + 1
          = (memberOpenCount (issueApply db req (newBorrowing today lid req nid))
              m.member_id : Int)
      rw [hc]
      push_cast
      omega
    · rw [if_neg hkm]
      have hmk : ((newBorrowing today lid req nid).member_id == m.member_id) = false := by
        show (req.member_id == m.member_id) = false
        have : m.member_id ≠ req.member_id := by simpa using hkm
        simp [Ne.symm this]
      have hc := hcount m.member_id
      rw [hmk, Bool.false_and, if_neg (by simp)] at hc
      rw [hc]
      exact hbase

theorem Inv_return (db : DB) (today : Int) (bid pid : Nat) (ret : BorrowingReturn)
    (hinv : Inv db) {db' : DB} {rb : Borrowing}
    (hok : return_book db today bid ret pid = .ok (db', rb)) :
    Inv db' := by
  obtain ⟨b, hf, hst, hrb, hdb⟩ := return_book_ok hok
  obtain ⟨hndB, hndM, hndL, hbooks, hmembers⟩ := hinv
  have hf2 : db.borrowings.find? (fun x => x.borrow_id == bid) = some b := hf
  have hkey : (b.borrow_id == bid) = true :=
    List.find?_some (p := fun (x : Borrowing) => x.borrow_id == bid) hf2
  have hbidEq : b.borrow_id = bid := by simpa using hkey
  subst hdb
  refine ⟨?_, ?_, ?_, ?_, ?_⟩
  · rw [returnApply_books, map_key_map_if (fun (x : Book) => x.book_id) db.books b.book_id
      (fun bk => { bk with available_copies := bk.available_copies + 1 })
      (fun x => rfl)]
    exact hndB
  · rw [returnApply_members, map_key_map_if (fun (x : Member) => x.member_id) db.members
      b.member_id
      (fun m => { m with current_borrowed := m.current_borrowed - 1 })
      (fun x => rfl)]
    exact hndM
  · rw [returnApply_borrowings,
      map_key_update (fun x => x.borrow_id) db.borrowings bid
        (returnedLoan b today ret) hbidEq]
    exact hndL
  · intro bk2 hmem
    rw [returnApply_books] at hmem
    obtain ⟨bk, hbk, rfl⟩ := List.mem_map.mp hmem
    have hbase := hbooks bk hbk
    have hc := bookOpenCount_returnApply db today bid b ret pid bk.book_id hndL hf hst
    by_cases hkb : (bk.book_id == b.book_id) = true
    · have h1 : bk.book_id = b.book_id := by simpa using hkb
      rw [if_pos hkb]
      rw [show (b.book_id == bk.book_id) = true by simp [h1], if_pos rfl] at hc
      constructor
      · show 0 ≤ bk.available_copies + 1
        omega
      · show bk.available_copies + 1
            + (bookOpenCount (returnApply db today bid b ret pid) bk.book_id : Int)
          = bk.total_copies
        omega
    · rw [if_neg hkb]
      have h1 : bk.book_id ≠ b.book_id := by simpa using hkb
      rw [show (b.book_id == bk.book_id) = false by simp [Ne.symm h1],
        if_neg (by simp)] at hc
      refine ⟨hbase.1, ?_⟩
      have := hbase.2
      omega
  · intro m2 hmem
    rw [returnApply_members] at hmem
    obtain ⟨m, hmm, rfl⟩ := List.mem_map.mp hmem
    have hbase := hmembers m hmm
    have hc := memberOpenCount_returnApply db today bid b ret pid m.member_id hndL hf hst
    by_cases hkm : (m.member_id == b.member_id) = true
    · have h1 : m.member_id = b.member_id := by simpa using hkm
      rw [if_pos hkm]
      rw [show (b.member_id == m.member_id) = true by simp [h1], if_pos rfl] at hc
      show m.current_borrowed - 1
          = (memberOpenCount (returnApply db today bid b ret pid) m.member_id : Int)
      push_cast [← hc] at hbase ⊢
      omega
    · rw [if_neg hkm]
      have h1 : m.member_id ≠ b.member_id := by simpa using hkm
      rw [show (b.member_id == m.member_id) = false by simp [Ne.symm h1],
        if_neg (by simp)] at hc
      rw [hbase]
      omega

/-- A key-preserving per-row rewrite commutes with a key-based `find?`. -/
theorem find?_key_map_if {α : Type} (key : α → Nat) (l : List α) (q k : Nat)
    (f : α → α) (hf : ∀ x, key (f x) = key x) :
    (l.map fun x => if key x == q then f x else x).find? (fun x => key x == k)
      = (l.find? fun x => key x == k).map fun x => if key x == q then f x else x := by
  rw [List.find?_map]
  have hp : ((fun x => key x == k) ∘ fun x => if key x == q then f x else x)
      = fun x => key x == k := by
    funext x
    simp only [Function.comp_apply]
    by_cases h : (key x == q) = true
    · rw [if_pos h, hf]
    · rw [if_neg h]
  rw [hp]

/-- Claim C5: on a store satisfying the reachable-state invariant, the
book bound 0 ≤ available_copies ≤ total_copies holds before every Issue
and Return call and still holds for every book after a successful one:
Issue requires a positive available count on the requested book and
decrements it by 1, Return increments the returned loan's book by 1, and
each preserves the bound. -/
theorem C5_available_copies_invariant (db : DB) (today : Int) (lid : Nat)
    (req : BorrowingCreate) (nid : Nat) (bid pid : Nat) (ret : BorrowingReturn)
    (hinv : Inv db)
    (hfresh : ∀ x ∈ db.borrowings, x.borrow_id ≠ nid) :
    (∀ bk ∈ db.books, 0 ≤ bk.available_copies ∧
      bk.available_copies ≤ bk.total_copies) ∧
    (∀ db' nb, create_borrowing db today lid req nid = .ok (db', nb) →
      ∀ bk ∈ db'.books, 0 ≤ bk.available_copies ∧
        bk.available_copies ≤ bk.total_copies) ∧
    (∀ db' rb, return_book db today bid ret pid = .ok (db', rb) →
      ∀ bk ∈ db'.books, 0 ≤ bk.available_copies ∧
        bk.available_copies ≤ bk.total_copies) ∧
    (∀ db' nb, create_borrowing db today lid req nid = .ok (db', nb) →
      ∃ bk, findBook db req.book_id = some bk ∧ 0 < bk.available_copies ∧
        findBook db' req.book_id
          = some { bk with available_copies := bk.available_copies - 1 }) ∧
    (∀ db' rb, return_book db today bid ret pid = .ok (db', rb) →
      ∀ bk, findBook db rb.book_id = some bk →
        findBook db' rb.book_id
          = some { bk with available_copies := bk.available_copies + 1 }) := by
  have bounds : ∀ d : DB, Inv d → ∀ bk ∈ d.books,
      0 ≤ bk.available_copies ∧ bk.available_copies ≤ bk.total_copies := by
    intro d hd bk hbk
    obtain ⟨-, -, -, hbooks, -⟩ := hd
    have h := hbooks bk hbk
    exact ⟨h.1, by omega⟩
  refine ⟨bounds db hinv,
    fun db' nb hok => bounds db' (Inv_issue db today lid req nid hinv hfresh hok),
    fun db' rb hok => bounds db' (Inv_return db today bid pid ret hinv hok),
    ?_, ?_⟩
  · intro db' nb hok
    obtain ⟨bk0, m0, hb, hav, hm, hact, hup, hnb, hdb⟩ := create_borrowing_ok hok
    subst hdb
    have hb2 : db.books.find? (fun x => x.book_id == req.book_id) = some bk0 := hb
    have hkeyb : (bk0.book_id == req.book_id) = true :=
      List.find?_some (p := fun (x : Book) => x.book_id == req.book_id) hb2
    refine ⟨bk0, hb, by omega, ?_⟩
    show ((issueApply db req (newBorrowing today lid req nid)).books).find?
        (fun x => x.book_id == req.book_id)
      = some { bk0 with available_copies := bk0.available_copies - 1 }
    rw [issueApply_books,
      find?_key_map_if (fun (x : Book) => x.book_id) db.books req.book_id
        req.book_id
        (fun bk => { bk with available_copies := bk.available_copies - 1 })
        (fun x => rfl),
      hb2, Option.map_some', if_pos hkeyb]
  · intro db' rb hok bk hbk
    obtain ⟨b, hf, hst, hrb, hdb⟩ := return_book_ok hok
    subst hdb
    have hrbb : rb.book_id = b.book_id := by rw [hrb]; rfl
    rw [hrbb] at hbk ⊢
    have hbk2 : db.books.find? (fun x => x.book_id == b.book_id) = some bk := hbk
    have hkeyb : (bk.book_id == b.book_id) = true :=
      List.find?_some (p := fun (x : Book) => x.book_id == b.book_id) hbk2
    show ((returnApply db today bid b ret pid).books).find?
        (fun x => x.book_id == b.book_id)
      = some { bk with available_copies := bk.available_copies + 1 }
    rw [returnApply_books,
      find?_key_map_if (fun (x : Book) => x.book_id) db.books b.book_id
        b.book_id
        (fun bk => { bk with available_copies := bk.available_copies + 1 })
        (fun x => rfl),
      hbk2, Option.map_some', if_pos hkeyb]

/-- Witness for C5 at the concrete invariant-satisfying store `w5DB`:
the bound evaluated at its single book. -/
theorem C5_witness :
    0 ≤ w5Book.available_copies ∧ w5Book.available_copies ≤ w5Book.total_copies :=
  (C5_available_copies_invariant w5DB 0 1 w5Req 10 1 20 ⟨none⟩
    (by unfold Inv; decide) (by decide)).1 w5Book (by decide)

/-- Claim C6: on a store satisfying the reachable-state invariant, every
member's `current_borrowed` equals that member's count of Borrowing rows
with status in {borrowed, late}, before every Issue and Return call and
after every successful one; Issue creates its loan in status `borrowed`
and raises the issuing member's counter by one, Return marks the loan
`returned` and lowers the owning member's counter by one. -/
theorem C6_current_borrowed_invariant (db : DB) (today : Int) (lid : Nat)
    (req : BorrowingCreate) (nid : Nat) (bid pid : Nat) (ret : BorrowingReturn)
    (hinv : Inv db)
    (hfresh : ∀ x ∈ db.borrowings, x.borrow_id ≠ nid) :
    (∀ m ∈ db.members,
      m.current_borrowed = (memberOpenCount db m.member_id : Int)) ∧
    (∀ db' nb, create_borrowing db today lid req nid = .ok (db', nb) →
      nb.status = .borrowed ∧
      (∀ m, findMember db req.member_id = some m →
        findMember db' req.member_id
          = some { m with
              current_borrowed := m.current_borrowed + 1
              total_borrowed := m.total_borrowed + 1 }) ∧
      (∀ m ∈ db'.members,
        m.current_borrowed = (memberOpenCount db' m.member_id : Int))) ∧
    (∀ db' rb, return_book db today bid ret pid = .ok (db', rb) →
      rb.status = .returned ∧
      (∀ m, findMember db rb.member_id = some m →
        findMember db' rb.member_id
          = some { m with current_borrowed := m.current_borrowed - 1 }) ∧
      (∀ m ∈ db'.members,
        m.current_borrowed = (memberOpenCount db' m.member_id : Int))) := by
  refine ⟨hinv.2.2.2.2, ?_, ?_⟩
  · intro db' nb hok
    refine ⟨?_, ?_,
      fun m hm4 => (Inv_issue db today lid req nid hinv hfresh hok).2.2.2.2 m hm4⟩
    · obtain ⟨bk0, m0, hb, hav, hm, hact, hup, hnb, hdb⟩ := create_borrowing_ok hok
      rw [hnb]
      rfl
    · intro m hm2
      obtain ⟨bk0, m0, hb, hav, hm, hact, hup, hnb, hdb⟩ := create_borrowing_ok hok
      subst hdb
      have hm3 : db.members.find? (fun x => x.member_id == req.member_id)
          = some m := hm2
      have hkeym : (m.member_id == req.member_id) = true :=
        List.find?_some (p := fun (x : Member) => x.member_id == req.member_id) hm3
      show ((issueApply db req (newBorrowing today lid req nid)).members).find?
          (fun x => x.member_id == req.member_id)
        = some { m with
            current_borrowed := m.current_borrowed + 1
            total_borrowed := m.total_borrowed + 1 }
      rw [issueApply_members,
        find?_key_map_if (fun (x : Member) => x.member_id) db.members req.member_id
          req.member_id
          (fun m => { m with
            current_borrowed := m.current_borrowed + 1
            total_borrowed := m.total_borrowed + 1 })
          (fun x => rfl),
        hm3, Option.map_some', if_pos hkeym]
  · intro db' rb hok
    obtain ⟨b, hf, hst, hrb, hdb⟩ := return_book_ok hok
    refine ⟨by rw [hrb]; rfl, ?_,
      fun m hm4 => (Inv_return db today bid pid ret hinv hok).2.2.2.2 m hm4⟩
    intro m hm2
    subst hdb
    have hrbm : rb.member_id = b.member_id := by rw [hrb]; rfl
    rw [hrbm] at hm2 ⊢
    have hm3 : db.members.find? (fun x => x.member_id == b.member_id) = some m := hm2
    have hkeym : (m.member_id == b.member_id) = true :=
      List.find?_some (p := fun (x : Member) => x.member_id == b.member_id) hm3
    show ((returnApply db today bid b ret pid).members).find?
        (fun x => x.member_id == b.member_id)
      = some { m with current_borrowed := m.current_borrowed - 1 }
    rw [returnApply_members,
      find?_key_map_if (fun (x : Member) => x.member_id) db.members b.member_id
        b.member_id
        (fun m => { m with current_borrowed := m.current_borrowed - 1 })
        (fun x => rfl),
      hm3, Option.map_some', if_pos hkeym]

/-- Witness for C6 at the concrete invariant-satisfying store `w5DB`:
the counter identity evaluated at its single member. -/
theorem C6_witness :
    w5Member.current_borrowed = (memberOpenCount w5DB w5Member.member_id : Int) :=
  (C6_current_borrowed_invariant w5DB 0 1 w5Req 10 1 20 ⟨none⟩
    (by unfold Inv; decide) (by decide)).1 w5Member (by decide)

/-- Claim C3: a Return on an existing, not-yet-returned loan succeeds,
and it creates a Penalty exactly when `daysLate = max 0 (today -
due_date)` is strictly positive — the penalty referencing the member and
the loan, with the flat amount `daysLate * 5000` and status unpaid —
while a return on or before the due date leaves the penalties table
unchanged. -/
theorem C3_return_penalty (db : DB) (today : Int) (bid pid : Nat)
    (ret : BorrowingReturn) (b : Borrowing)
    (hfind : findBorrowing db bid = some b)
    (hst : b.status ≠ .returned) :
    ∃ db' rb, return_book db today bid ret pid = .ok (db', rb) ∧
      (0 < max 0 (today - b.due_date) →
        ∃ p, db'.penalties = db.penalties ++ [p] ∧
          p.amount = max 0 (today - b.due_date) * 5000 ∧
          p.status = .unpaid ∧ p.member_id = b.member_id ∧
          p.borrow_id = some b.borrow_id) ∧
      (max 0 (today - b.due_date) = 0 → db'.penalties = db.penalties) := by
  refine ⟨returnApply db today bid b ret pid, returnedLoan b today ret, ?_, ?_, ?_⟩
  · simp [return_book, hfind, hst]
  · intro hpos
    have hlt : today > b.due_date := by omega
    have hmax : max 0 (today - b.due_date) = today - b.due_date := by omega
    refine ⟨latePenalty b (today - b.due_date) pid, ?_, ?_, rfl, rfl, rfl⟩
    · rw [returnApply_penalties, if_pos hlt]
    · simp [latePenalty, hmax]
  · intro hzero
    have hlt : ¬ today > b.due_date := by omega
    rw [returnApply_penalties, if_neg hlt]

/-- Witness for C3 at a concrete store: the return on `w3DB` 5 days past
the loan's due date succeeds and creates the unpaid flat-rate penalty. -/
theorem C3_witness :
    ∃ db' rb, return_book w3DB 19 1 ⟨none⟩ 7 = .ok (db', rb) ∧
      (0 < max 0 (19 - w3Loan.due_date) →
        ∃ p, db'.penalties = w3DB.penalties ++ [p] ∧
          p.amount = max 0 (19 - w3Loan.due_date) * 5000 ∧
          p.status = .unpaid ∧ p.member_id = w3Loan.member_id ∧
          p.borrow_id = some w3Loan.borrow_id) ∧
      (max 0 (19 - w3Loan.due_date) = 0 → db'.penalties = w3DB.penalties) :=
  C3_return_penalty w3DB 19 1 7 ⟨none⟩ w3Loan (by decide) (by decide)

/-- Claim C4: Return fails 404 exactly when the loan id resolves to no
row and fails with the conflict message exactly when the row is already
returned; after a successful Return the loan reads back as returned, and
a second Return of the same loan fails with the conflict error — never a
silent no-op. -/
theorem C4_return_idempotence (db : DB) (today today2 : Int) (bid pid pid2 : Nat)
    (ret ret2 : BorrowingReturn) :
    (∀ d, return_book db today bid ret pid = .error (.notFound d) ↔
      (findBorrowing db bid = none ∧ d = borrowingNotFoundMsg)) ∧
    (∀ d, return_book db today bid ret pid = .error (.badRequest d) ↔
      ((∃ b, findBorrowing db bid = some b ∧ b.status = .returned) ∧
        d = alreadyReturnedMsg)) ∧
    (∀ db' rb, return_book db today bid ret pid = .ok (db', rb) →
      findBorrowing db' bid = some rb ∧ rb.status = .returned ∧
      return_book db' today2 bid ret2 pid2
        = .error (.badRequest alreadyReturnedMsg)) := by
  refine ⟨?_, ?_, ?_⟩
  · intro d
    rcases hf : findBorrowing db bid with _ | b
    · simp [return_book, hf]
      exact eq_comm
    · by_cases hst : b.status = .returned <;> simp [return_book, hf, hst]
  · intro d
    rcases hf : findBorrowing db bid with _ | b
    · simp [return_book, hf]
    · by_cases hst : b.status = .returned
      · simp [return_book, hf, hst]
        exact eq_comm
      · simp [return_book, hf, hst]
  · intro db' rb h
    obtain ⟨b, hf, hst, hrb, hdb⟩ := return_book_ok h
    have hf2 : db.borrowings.find? (fun x => x.borrow_id == bid) = some b := hf
    have hkey : (b.borrow_id == bid) = true :=
      List.find?_some (p := fun (x : Borrowing) => x.borrow_id == bid) hf2
    have hfind2 : findBorrowing db' bid = some (returnedLoan b today ret) := by
      rw [hdb]
      show (returnApply db today bid b ret pid).borrowings.find?
        (fun x => x.borrow_id == bid) = some (returnedLoan b today ret)
      rw [returnApply_borrowings]
      exact find?_update_key (fun x => x.borrow_id) db.borrowings bid
        (returnedLoan b today ret) b hf2 hkey
    refine ⟨by rw [hrb]; exact hfind2, by rw [hrb]; rfl, ?_⟩
    simp [return_book, hfind2, returnedLoan]

/-- Claim C7 fails on the code in its reason clause: the unpaid-penalty
rejection cites the summed unpaid amount in som, not the unpaid-penalty
count.  At `c7DB` the member holds exactly one unpaid penalty, of 25000
som; Issue rejects citing 25000, which is not the count-citing reason. -/
theorem C7_counterexample :
    create_borrowing c7DB 0 1 c7Req 9
      = .error (.badRequest (unpaidSumMsg 25000))
      ∧ unpaidPenaltyCount c7DB 1 = 1
      ∧ unpaidSumMsg 25000 ≠ unpaidCountMsg 1 :=
  ⟨rfl, rfl, by decide⟩

/-- Claim C7 (amended): a rejected Issue commits nothing — the store
after the call is the store before it — and the two cited rejections
hold with the reasons the code actually produces: the unpaid-penalty
rejection carries the summed unpaid amount in som (not the unpaid
count), and an Issue on a book with no available copy is rejected with
the no-copies message. -/
theorem C7_issue_rejection_frame (db : DB) (today : Int) (lid : Nat)
    (req : BorrowingCreate) (nid : Nat) :
    (∀ bk, findBook db req.book_id = some bk → 0 < bk.available_copies →
      ∀ m, findMember db req.member_id = some m → m.is_active = true →
      0 < unpaidPenaltySum db req.member_id →
      create_borrowing db today lid req nid
        = .error (.badRequest (unpaidSumMsg (unpaidPenaltySum db req.member_id)))) ∧
    (∀ bk, findBook db req.book_id = some bk → bk.available_copies ≤ 0 →
      create_borrowing db today lid req nid = .error (.badRequest noCopiesMsg)) ∧
    (∀ e, create_borrowing db today lid req nid = .error e →
      issueState db today lid req nid = db) := by
  refine ⟨?_, ?_, ?_⟩
  · intro bk hb hav m hm hact hup
    have hav2 : ¬ bk.available_copies ≤ 0 := by omega
    simp [create_borrowing, hb, hav2, hm, hact, hup]
  · intro bk hb hav
    simp [create_borrowing, hb, hav]
  · intro e he
    simp [issueState, he]

/-- Claim C9: an Issue whose loan period is not positive is rejected by
the spec-modelled schema validation with a typed validation error before
the endpoint body runs, and no Borrowing is ever created for it. -/
theorem C9_nonpositive_days (db : DB) (today : Int) (lid : Nat)
    (req : BorrowingCreate) (nid : Nat) (h : req.days ≤ 0) :
    create_borrowing_endpoint db today lid req nid
      = .error (.unprocessable nonPositiveDaysMsg) ∧
    ∀ db' nb, create_borrowing_endpoint db today lid req nid ≠ .ok (db', nb) := by
  have hv : validate_borrowing_create req
      = some (.unprocessable nonPositiveDaysMsg) := by
    simp [validate_borrowing_create, h]
  constructor
  · simp [create_borrowing_endpoint, hv]
  · intro db' nb hok
    simp [create_borrowing_endpoint, hv] at hok

/-- Witness for C9 at a concrete store: the zero-day request `c9Req` is
rejected by the schema validation and never yields a created loan. -/
theorem C9_witness :
    create_borrowing_endpoint c9DB 0 1 c9Req 4
      = .error (.unprocessable nonPositiveDaysMsg) ∧
    ∀ db' nb, create_borrowing_endpoint c9DB 0 1 c9Req 4 ≠ .ok (db', nb) :=
  C9_nonpositive_days c9DB 0 1 c9Req 4 (by decide)

/-- Claim C10 fails on the code: paying with the explicit override
`paid_amount = 0` does not record 0 — Python's `or` treats the 0 as
missing and `paid_amount` falls back to the penalty's amount. -/
theorem C10_counterexample :
    pay_penalty c10DB 5 1 { paid_amount := some 0, notes := none }
      = .ok ({ c10DB with penalties := [c10PaidPenalty] }, c10PaidPenalty)
      ∧ c10PaidPenalty.paid_amount = some 10000
      ∧ c10PaidPenalty.paid_amount ≠ some 0 :=
  ⟨rfl, rfl, by decide⟩

/-- Claim C10 (amended): paying an existing penalty not already paid
mutates only `status`, `paid_date`, `paid_amount` and optionally
`notes`; `amount` and the identifying fields stay fixed, every other
table and every differently-keyed penalty row are untouched, and
`paid_amount` equals the supplied override exactly when that override is
non-zero — a missing override, and equally an explicit override of 0
(falsy under the source's `or`), record the penalty's own amount. -/
theorem C10_pay_penalty_frame (db : DB) (today : Int) (pid : Nat)
    (payment : PenaltyUpdate) (p : Penalty)
    (hfind : findPenalty db pid = some p)
    (hst : p.status ≠ .paid) :
    ∃ db' p2, pay_penalty db today pid payment = .ok (db', p2) ∧
      p2.status = .paid ∧ p2.paid_date = some today ∧
      p2.amount = p.amount ∧ p2.penalty_id = p.penalty_id ∧
      p2.member_id = p.member_id ∧ p2.borrow_id = p.borrow_id ∧
      p2.reason = p.reason ∧
      (∀ a, payment.paid_amount = some a → a ≠ 0 → p2.paid_amount = some a) ∧
      (payment.paid_amount = none ∨ payment.paid_amount = some 0 →
        p2.paid_amount = some p.amount) ∧
      db'.books = db.books ∧ db'.members = db.members ∧
      db'.borrowings = db.borrowings ∧
      findPenalty db' pid = some p2 ∧
      (∀ q ∈ db.penalties, (q.penalty_id == pid) = false → q ∈ db'.penalties) := by
  refine ⟨payApply db pid (paidPenalty p today payment), paidPenalty p today payment,
    ?_, rfl, rfl, rfl, rfl, rfl, rfl, rfl, ?_, ?_, rfl, rfl, rfl, ?_, ?_⟩
  · simp [pay_penalty, hfind, hst]
  · intro a ha hne
    simp [paidPenalty, ha, hne]
  · rintro (hnone | hzero)
    · simp [paidPenalty, hnone]
    · simp [paidPenalty, hzero]
  · have hfind2 : db.penalties.find? (fun x => x.penalty_id == pid) = some p := hfind
    have hkey : (p.penalty_id == pid) = true :=
      List.find?_some (p := fun (x : Penalty) => x.penalty_id == pid) hfind2
    show (payApply db pid (paidPenalty p today payment)).penalties.find?
      (fun x => x.penalty_id == pid) = some (paidPenalty p today payment)
    simp only [payApply]
    exact find?_update_key (fun x => x.penalty_id) db.penalties pid
      (paidPenalty p today payment) p hfind2 hkey
  · intro q hq hne
    simp only [payApply]
    exact List.mem_map.mpr ⟨q, hq, by simp [hne]⟩

/-- Witness for C10 at a concrete store: paying the 10000-som penalty
with the non-zero override 7000 records 7000 and leaves the rest of the
row and store untouched. -/
theorem C10_witness :
    ∃ db' p2, pay_penalty c10DB 5 1 { paid_amount := some 7000, notes := none }
        = .ok (db', p2) ∧
      p2.status = .paid ∧ p2.paid_date = some 5 ∧
      p2.amount = c10Penalty.amount ∧ p2.penalty_id = c10Penalty.penalty_id ∧
      p2.member_id = c10Penalty.member_id ∧ p2.borrow_id = c10Penalty.borrow_id ∧
      p2.reason = c10Penalty.reason ∧
      (∀ a, (some (7000 : Int) : Option Int) = some a → a ≠ 0 →
        p2.paid_amount = some a) ∧
      ((some (7000 : Int) : Option Int) = none ∨
          (some (7000 : Int) : Option Int) = some 0 →
        p2.paid_amount = some c10Penalty.amount) ∧
      db'.books = c10DB.books ∧ db'.members = c10DB.members ∧
      db'.borrowings = c10DB.borrowings ∧
      findPenalty db' 1 = some p2 ∧
      (∀ q ∈ c10DB.penalties, (q.penalty_id == 1) = false →
        q ∈ db'.penalties) :=
  C10_pay_penalty_frame c10DB 5 1 { paid_amount := some 7000, notes := none }
    c10Penalty (by decide) (by decide)

end Kutubxona
